import Mathlib

/-
Verification of the static paper-view page of mk-knight23/23-flask-starter.

The page (src/unnamed/part_001) is a single React component `App` that
renders three hard-coded record sets (REFERENCES, KEY_FINDINGS, AUTHORS)
plus literal markup (a results table, an author block, a references list).
The styling configuration lives in src/tailwind.config.js.

We embed the data and the data-dependent fragments of the render as pure
Lean definitions and prove the specified rendering-output properties.
-/

namespace FlaskStarter

/-- A bibliography entry, as in the REFERENCES array of the page.
`volume`, `issue` and `pages` are optional object properties in the
source, hence `Option String` here (an absent property is `none`). -/
structure Reference where
  id : Nat
  authors : String
  title : String
  journal : String
  year : String
  volume : Option String := none
  issue : Option String := none
  pages : Option String := none
  deriving Repr, DecidableEq

/-- A headline statistic card record, as in the KEY_FINDINGS array. -/
structure Finding where
  metric : String
  value : String
  description : String
  source : String
  deriving Repr, DecidableEq

/-- A contributor record, as in the AUTHORS array. -/
structure Author where
  name : String
  affiliation : String
  deriving Repr, DecidableEq

/-- The hard-coded REFERENCES array (src/unnamed/part_001, lines 30-34). -/
def REFERENCES : List Reference :=
  [ { id := 1, authors := "Smith, J., & Johnson, K.",
      title := "Scalable API Architecture Patterns",
      journal := "Journal of Systems Architecture", year := "2024",
      volume := some "142", pages := some "102889" },
    { id := 2, authors := "Chen, L., et al.",
      title := "Async Performance Benchmarks in Python",
      journal := "Proceedings of the 2024 Python Conference", year := "2024",
      pages := some "234-251" },
    { id := 3, authors := "Williams, R., & Davis, M.",
      title := "Microservices Communication Patterns",
      journal := "IEEE Software", year := "2023",
      volume := some "40", issue := some "3", pages := some "45-58" } ]

/-- The hard-coded KEY_FINDINGS array (src/unnamed/part_001, lines 36-40). -/
def KEY_FINDINGS : List Finding :=
  [ { metric := "Response Latency", value := "42%",
      description := "Reduction in median response time compared to traditional WSGI implementations",
      source := "[2]" },
    { metric := "Throughput", value := "3.2x",
      description := "Higher request throughput under concurrent load conditions",
      source := "[2]" },
    { metric := "Memory Usage", value := "28%",
      description := "Lower memory footprint during sustained operation",
      source := "[1]" } ]

/-- The hard-coded AUTHORS array (src/unnamed/part_001, lines 42-46). -/
def AUTHORS : List Author :=
  [ { name := "Dr. Sarah Mitchell",
      affiliation := "Department of Computer Science, Stanford University" },
    { name := "Prof. James Chen",
      affiliation := "Software Systems Laboratory, MIT" },
    { name := "Dr. Emily Watson",
      affiliation := "Data Science Institute, Oxford University" } ]

/-- JavaScript truthiness of an optional string property: an absent
property (`undefined`) and the empty string are falsy, every other
string is truthy.  Used by the ternaries in the reference renderer. -/
def jsTruthy : Option String → Bool
  | none => false
  | some s => s != ""

/-- JavaScript `Array.prototype.join(sep)` on a list of strings:
elements concatenated with `sep` between consecutive elements,
the empty array joining to the empty string. -/
def jsJoin (sep : String) : List String → String
  | [] => ""
  | [x] => x
  | x :: y :: xs => x ++ sep ++ jsJoin sep (y :: xs)

/-- The author-name line of the Author block:
`AUTHORS.map(a => a.name).join(", ")` (line 90). -/
def authorNameLine : String := jsJoin ", " (AUTHORS.map Author.name)

/-- The affiliation line of the Author block:
`AUTHORS.map(a => a.affiliation).join("; ")` (line 92). -/
def authorAffiliationLine : String :=
  jsJoin "; " (AUTHORS.map Author.affiliation)

/-- The volume fragment of a rendered citation:
`ref.volume ? \x60, ${ref.volume}\x60 : ''` (line 249). -/
def volumePart (r : Reference) : String :=
  if jsTruthy r.volume then ", " ++ r.volume.getD "" else ""

/-- The issue fragment of a rendered citation:
`ref.issue ? \x60(${ref.issue})\x60 : ''` (line 249). -/
def issuePart (r : Reference) : String :=
  if jsTruthy r.issue then "(" ++ r.issue.getD "" ++ ")" else ""

/-- The pages fragment of a rendered citation:
`ref.pages ? \x60, ${ref.pages}\x60 : ''` (line 249). -/
def pagesPart (r : Reference) : String :=
  if jsTruthy r.pages then ", " ++ r.pages.getD "" else ""

/-- The full citation text of one reference item (line 249), with the
`<em>` element flattened to its text content. -/
def referenceText (r : Reference) : String :=
  r.authors ++ ". (" ++ r.year ++ "). " ++ r.title ++ ". " ++ r.journal
    ++ volumePart r ++ issuePart r ++ pagesPart r ++ "."

/-- The bracketed citation-number label of one reference item
(`[{ref.id}]`, line 247). -/
def citationLabel (r : Reference) : String :=
  "[" ++ toString r.id ++ "]"

/-- The rendered references list (lines 245-252): one
(citation-number label, citation text) pair per REFERENCES entry,
in array order. -/
def renderedReferences : List (String × String) :=
  REFERENCES.map (fun r => (citationLabel r, referenceText r))

/-- The citation-number labels of the rendered references list,
in render order. -/
def renderedCitationLabels : List String :=
  renderedReferences.map Prod.fst

/-- One row of the results table: the metric name and the three value
cells (Traditional WSGI, FlaskStack (Async), Improvement). -/
structure TableRow where
  metric : String
  wsgi : String
  flaskstack : String
  improvement : String
  deriving Repr, DecidableEq

/-- The header row of Table 1 (lines 193-198). -/
def resultsTableHeader : List String :=
  ["Metric", "Traditional WSGI", "FlaskStack (Async)", "Improvement"]

/-- The four literal body rows of Table 1 (lines 200-225), transcribed
cell by cell from the markup. -/
def resultsTableBody : List TableRow :=
  [ { metric := "Median Latency (p50)", wsgi := "45ms",
      flaskstack := "26ms", improvement := "42%" },
    { metric := "99th Percentile (p99)", wsgi := "128ms",
      flaskstack := "67ms", improvement := "48%" },
    { metric := "Requests/Second", wsgi := "2,450",
      flaskstack := "7,840", improvement := "3.2x" },
    { metric := "Memory (steady state)", wsgi := "256MB",
      flaskstack := "184MB", improvement := "28%" } ]

/-- The three value cells of a table row, in column order. -/
def rowCells (row : TableRow) : String × String × String :=
  (row.wsgi, row.flaskstack, row.improvement)

/-- One rendered Finding card (lines 173-186): the displayed value,
metric, description and source strings, in display order, inserted
into the markup unchanged. -/
def findingCard (f : Finding) : String × String × String × String :=
  (f.value, f.metric, f.description, f.source)

/-- The Finding grid (lines 172-187): one card per KEY_FINDINGS entry,
in array order. -/
def findingCards : List (String × String × String × String) :=
  KEY_FINDINGS.map findingCard

/-- The data-dependent content of the rendered page, assembled exactly
as `App` lays it out: author block lines, finding cards, results table
and references list, plus the literal title. -/
structure Document where
  title : String
  authorNames : String
  authorAffiliations : String
  findings : List (String × String × String × String)
  tableHeader : List String
  tableBody : List TableRow
  references : List (String × String)
  deriving Repr, DecidableEq

/-- The render operation of the `App` component (lines 48-274).  It takes
no parameters (modelled as `Unit`); the body has no conditional error
branch, no lookup that can miss and no I/O, so the `Except` result is
always `ok`.  Every field of the result is computed from the hard-coded
record sets exactly as the JSX does. -/
def renderApp : Unit → Except String Document := fun _ =>
  Except.ok
    { title := "Optimizing Python Web APIs: A Comparative Analysis of Synchronous and Asynchronous Architectures",
      authorNames := authorNameLine,
      authorAffiliations := authorAffiliationLine,
      findings := findingCards,
      tableHeader := resultsTableHeader,
      tableBody := resultsTableBody,
      references := renderedReferences }

/-- Serialize one table row for the flat markup dump. -/
def rowMarkup (row : TableRow) : String :=
  "<tr><td>" ++ row.metric ++ "</td><td>" ++ row.wsgi ++ "</td><td>"
    ++ row.flaskstack ++ "</td><td>" ++ row.improvement ++ "</td></tr>"

/-- Serialize one finding card for the flat markup dump. -/
def cardMarkup (c : String × String × String × String) : String :=
  "<card>" ++ c.1 ++ "|" ++ c.2.1 ++ "|" ++ c.2.2.1 ++ "|" ++ c.2.2.2
    ++ "</card>"

/-- Serialize one reference item for the flat markup dump. -/
def refMarkup (p : String × String) : String :=
  "<ref>" ++ p.1 ++ " " ++ p.2 ++ "</ref>"

/-- Flatten a rendered document into one markup string, in page order. -/
def documentMarkup (d : Document) : String :=
  "<h1>" ++ d.title ++ "</h1>"
    ++ "<p>" ++ d.authorNames ++ "</p><p>" ++ d.authorAffiliations ++ "</p>"
    ++ String.join (d.findings.map cardMarkup)
    ++ "<tr>" ++ String.join (d.tableHeader.map (fun h => "<th>" ++ h ++ "</th>")) ++ "</tr>"
    ++ String.join (d.tableBody.map rowMarkup)
    ++ String.join (d.references.map refMarkup)

/-- The complete output markup of one render invocation. -/
def renderMarkup (u : Unit) : String :=
  match renderApp u with
  | Except.ok d => documentMarkup d
  | Except.error e => e

/-- The Tailwind configuration object of src/tailwind.config.js,
field for field: content globs, the two custom colors, the custom
font families, the two custom box shadows and the plugin list. -/
structure TailwindConfig where
  content : List String
  colors : List (String × String)
  fontFamily : List (String × List String)
  boxShadow : List (String × String)
  plugins : List String
  deriving Repr, DecidableEq

/-- The exported config object (src/tailwind.config.js, lines 2-23). -/
def tailwindConfig : TailwindConfig :=
  { content := ["./index.html", "./src/**/*.\x7bjs,ts,jsx,tsx\x7d"],
    colors := [("flask", "#0891b2"), ("dark", "#020617")],
    fontFamily := [("mono", ["JetBrains Mono", "Fira Code", "monospace"])],
    boxShadow :=
      [("neon", "0 0 15px rgba(0, 180, 216, 0.2)"),
       ("neon-strong", "0 0 20px rgba(0, 180, 216, 0.3)")],
    plugins := [] }

/-- The tail of a separator join: every element preceded by the
separator.  Used only to relate jsJoin to String.intercalate. -/
def jsJoinTail (sep : String) : List String → String
  | [] => ""
  | x :: xs => sep ++ x ++ jsJoinTail sep xs

/-- Helper: jsJoin on a nonempty list is its head followed by the
separator-prefixed tail. -/
theorem jsJoin_cons (sep x : String) (xs : List String) :
    jsJoin sep (x :: xs) = x ++ jsJoinTail sep xs := by
  induction xs generalizing x with
  | nil => simp [jsJoin, jsJoinTail, String.append_empty]
  | cons y ys ih =>
    simp only [jsJoin, jsJoinTail, ih, String.append_assoc]

/-- Helper: the accumulator loop of String.intercalate appends the
separator-prefixed tail to its accumulator. -/
theorem intercalate_go_spec (sep : String) :
    ∀ (xs : List String) (acc : String),
      String.intercalate.go acc sep xs = acc ++ jsJoinTail sep xs := by
  intro xs
  induction xs with
  | nil => intro acc; simp [String.intercalate.go, jsJoinTail, String.append_empty]
  | cons x ys ih =>
    intro acc
    simp only [String.intercalate.go, jsJoinTail, ih, String.append_assoc]

/-- Helper: the source's JavaScript join coincides with Lean's standard
separator-interleaving concatenation on every list of strings. -/
theorem jsJoin_eq_intercalate (sep : String) (xs : List String) :
    jsJoin sep xs = String.intercalate sep xs := by
  cases xs with
  | nil => rfl
  | cons x ys =>
    rw [jsJoin_cons]
    show x ++ jsJoinTail sep ys = String.intercalate.go x sep ys
    rw [intercalate_go_spec]

/-- Claim C1, as stated, is false: the third body row of the results
table renders its first two value cells with thousands separators, as
"2,450" and "7,840", not as "2450" and "7840". -/
theorem C1_counterexample :
    resultsTableBody.map rowCells ≠
      [("45ms", "26ms", "42%"), ("128ms", "67ms", "48%"),
       ("2450", "7840", "3.2x"), ("256MB", "184MB", "28%")] := by
  decide

/-- Claim C1 (amended): the results table rendered by StaticPaperView
always contains exactly 4 body rows, and the literal value cells of
those rows are, in order: (45ms, 26ms, 42%), (128ms, 67ms, 48%),
("2,450", "7,840", 3.2x), (256MB, 184MB, 28%). -/
theorem C1_results_table_rows :
    resultsTableBody.length = 4 ∧
    resultsTableBody.map rowCells =
      [("45ms", "26ms", "42%"), ("128ms", "67ms", "48%"),
       ("2,450", "7,840", "3.2x"), ("256MB", "184MB", "28%")] := by
  decide

/-- Claim C2: the rendered references list carries, for every entry of
REFERENCES, exactly one citation item whose displayed bracketed number
is that entry's id, and the items appear in ascending id order. -/
theorem C2_references_list :
    renderedCitationLabels = REFERENCES.map citationLabel ∧
    (REFERENCES.all
      (fun r => renderedCitationLabels.count (citationLabel r) == 1)) = true ∧
    List.Pairwise (· < ·) (REFERENCES.map Reference.id) := by
  refine ⟨by decide, by decide, by decide⟩

/-- Claim C3: the Finding grid contains exactly 3 cards, one per
KEY_FINDINGS entry in input order, and each card displays that entry's
value string and metric string verbatim, with no transformation. -/
theorem C3_finding_cards :
    findingCards.length = 3 ∧
    findingCards.map (fun c => c.1) = KEY_FINDINGS.map Finding.value ∧
    findingCards.map (fun c => c.2.1) = KEY_FINDINGS.map Finding.metric ∧
    findingCards.map (fun c => (c.1, c.2.1)) =
      [("42%", "Response Latency"), ("3.2x", "Throughput"),
       ("28%", "Memory Usage")] := by
  decide

/-- Claim C4: the Author block renders one string that is all AUTHORS
names joined by ", " and a second that is all affiliations joined by
"; ", both in input order (the source's join agrees with
String.intercalate, and the concrete lines are as displayed). -/
theorem C4_author_block :
    authorNameLine = String.intercalate ", " (AUTHORS.map Author.name) ∧
    authorAffiliationLine =
      String.intercalate "; " (AUTHORS.map Author.affiliation) ∧
    authorNameLine = "Dr. Sarah Mitchell, Prof. James Chen, Dr. Emily Watson" ∧
    authorAffiliationLine =
      "Department of Computer Science, Stanford University; Software Systems Laboratory, MIT; Data Science Institute, Oxford University" := by
  refine ⟨jsJoin_eq_intercalate _ _, jsJoin_eq_intercalate _ _, ?_, ?_⟩ <;> decide

/-- Claim C5: rendering is deterministic and idempotent: any two
invocations of the render over the same static data produce the same
result document and byte-identical output markup; no hidden mutable
state exists in the embedding of the component. -/
theorem C5_render_deterministic :
    ∀ u v : Unit, renderMarkup u = renderMarkup v ∧ renderApp u = renderApp v :=
  fun _ _ => ⟨rfl, rfl⟩

/-- Claim C6: in REFERENCES every id is a natural number, all ids are
pairwise distinct, and they form the sequential run 1, 2, ... of length
REFERENCES.length. -/
theorem C6_reference_ids_sequential :
    (REFERENCES.map Reference.id).Nodup ∧
    REFERENCES.map Reference.id = List.range' 1 REFERENCES.length := by
  decide

/-- Claim C7: the render operation takes no input parameters (its domain
is the unit type) and is total: it always yields a rendered document and
never reaches an error branch. -/
theorem C7_render_total : ∀ u : Unit, ∃ d, renderApp u = Except.ok d :=
  fun _ => ⟨_, rfl⟩

/-- Claim C8: the styling-framework configuration declares a non-empty
content path list, exactly two custom named color tokens (flask, dark),
exactly one custom font stack (mono, non-empty), and exactly two custom
shadow presets (neon, neon-strong). -/
theorem C8_tailwind_config :
    tailwindConfig.content ≠ [] ∧
    tailwindConfig.colors.map Prod.fst = ["flask", "dark"] ∧
    tailwindConfig.fontFamily.length = 1 ∧
    (tailwindConfig.fontFamily.all (fun p => p.2 != [])) = true ∧
    tailwindConfig.boxShadow.map Prod.fst = ["neon", "neon-strong"] := by
  decide

/-- Claim C9: for every REFERENCES entry the optional citation fields
render conditionally in a fixed format: volume as ", v" exactly when
present, issue as "(i)" exactly when present, pages as ", p" exactly
when present, and an absent field contributes the empty string. -/
theorem C9_optional_citation_fields :
    REFERENCES.all (fun r =>
      (match r.volume with
       | some v => volumePart r == ", " ++ v
       | none => volumePart r == "") &&
      (match r.issue with
       | some i => issuePart r == "(" ++ i ++ ")"
       | none => issuePart r == "") &&
      (match r.pages with
       | some p => pagesPart r == ", " ++ p
       | none => pagesPart r == "")) = true := by
  decide

/-- Claim C10: every KEY_FINDINGS source field is the string "[n]" for
some n that is the id of an existing REFERENCES entry, so the shipped
data satisfies referential integrity even though none is enforced. -/
theorem C10_finding_sources_resolve :
    KEY_FINDINGS.all (fun f =>
      (REFERENCES.map Reference.id).any
        (fun n => f.source == "[" ++ toString n ++ "]")) = true := by
  decide

end FlaskStarter
